import Mathlib

/-!
CUDA memory component (`src/components/mc/cuda/mc_cuda.c`)

A shallow embedding of the CUDA memory component of UCC: the copy-kind
resolver, the transfer engine, the allocator, the pointer introspector and
the instance initialisation, together with the properties the specification
states about them.

Conventions of the embedding:

* pointers and `size_t` / `unsigned long` values are natural numbers, the null
  pointer is `0`; `int` values are integers;
* `cudaError_t` and `CUresult` are natural numbers, `0` being success;
* every native (CUDA runtime or driver) call takes its result as an argument of
  the embedded function, and is recorded in the call trace of the `World`;
* the runtime's sticky last-error is the field `last_error` of the `World`:
  a failing runtime call stores its error there, `cudaGetLastError` resets it;
  a driver call (`cuMemGetAddressRange`) reports through its `CUresult` only;
* `cudaGetErrorString` is a pure lookup used to format a diagnostic and is not
  recorded as a call;
* values declared in headers outside `mc_cuda.c` (whether `ucc_assert` is
  compiled in, `CUDART_VERSION`, the bits of `ucc_mem_attr_field`,
  `UCC_ULUNITS_AUTO`, the status `CUDACHECK` returns) are parameters.
-/

namespace McCuda

/-! ## Data model -/

/-- Status codes (`ucc_status_t`) the component returns. -/
inductive ucc_status_t
  | UCC_OK
  | UCC_ERR_NOT_SUPPORTED
  | UCC_ERR_INVALID_PARAM
  | UCC_ERR_NO_MEMORY
  | UCC_ERR_NO_MESSAGE
  deriving DecidableEq, Repr

/-- Memory kinds (`ucc_memory_type_t`). The three enumerators the component names
are explicit; `OTHER n` stands for any further enumerator of the public header. -/
inductive ucc_memory_type_t
  | UCC_MEMORY_TYPE_HOST
  | UCC_MEMORY_TYPE_CUDA
  | UCC_MEMORY_TYPE_CUDA_MANAGED
  | OTHER (n : Nat)
  deriving DecidableEq, Repr

/-- Transfer modes (`cudaMemcpyKind` of the CUDA runtime). -/
inductive cudaMemcpyKind
  | cudaMemcpyHostToHost
  | cudaMemcpyHostToDevice
  | cudaMemcpyDeviceToHost
  | cudaMemcpyDeviceToDevice
  | cudaMemcpyDefault
  deriving DecidableEq, Repr

/-- Native memory types (`enum cudaMemoryType` of the CUDA runtime). -/
inductive cudaMemoryType
  | cudaMemoryTypeUnregistered
  | cudaMemoryTypeHost
  | cudaMemoryTypeDevice
  | cudaMemoryTypeManaged
  deriving DecidableEq, Repr

/-- Result code of a CUDA runtime call. -/
abbrev cudaError_t := Nat

/-- Result code of a CUDA driver call. -/
abbrev CUresult := Nat

/-- The runtime's success code. -/
def cudaSuccess : cudaError_t := 0

/-- The driver's success code. -/
def CUDA_SUCCESS : CUresult := 0

/-- The fields of `struct cudaPointerAttributes` the component reads: `type` with
the newer runtime, `memoryType` and `isManaged` with the older one. -/
structure cudaPointerAttributes where
  type : cudaMemoryType
  memoryType : cudaMemoryType
  isManaged : Int
  deriving DecidableEq, Repr

/-- The fields of `struct cudaDeviceProp` the component reads. -/
structure cudaDeviceProp where
  maxThreadsPerBlock : Int
  maxGridSize0 : Int
  deriving DecidableEq, Repr

/-- The bits of `ucc_mem_attr_field`, declared in the public header. -/
structure ucc_mem_attr_field where
  UCC_MEM_ATTR_FIELD_MEM_TYPE : Nat
  UCC_MEM_ATTR_FIELD_BASE_ADDRESS : Nat
  UCC_MEM_ATTR_FIELD_ALLOC_LENGTH : Nat
  deriving DecidableEq, Repr

/-- The attribute record `ucc_mem_attr_t` a query reads and fills. -/
structure ucc_mem_attr_t where
  field_mask : Nat
  mem_type : ucc_memory_type_t
  base_address : Nat
  alloc_length : Nat
  deriving DecidableEq, Repr

/-- The configuration `ucc_mc_cuda_config_t` of the instance. -/
structure ucc_mc_cuda_config_t where
  reduce_num_blocks : Nat
  reduce_num_threads : Int
  deriving DecidableEq, Repr

/-- The instance `ucc_mc_cuda`: its configuration and its stream handle
(`none` before the stream is created). -/
structure ucc_mc_cuda_t where
  cfg : ucc_mc_cuda_config_t
  stream : Option Nat
  deriving DecidableEq, Repr

/-- Native calls, with the arguments the component chooses, as they appear in the
call trace. -/
inductive NativeCall
  | cudaGetDevice
  | cudaGetDeviceProperties
  | cudaStreamCreate
  | cudaStreamDestroy
  | cudaMalloc (size : Nat)
  | cudaFree (ptr : Nat)
  | cudaMemcpyAsync (dst src len : Nat) (kind : Option cudaMemcpyKind)
  | cudaStreamSynchronize
  | cudaPointerGetAttributes (ptr : Nat)
  | cuMemGetAddressRange (ptr : Nat)
  | cudaGetLastError
  deriving DecidableEq, Repr

/-- Diagnostics sent to the logging collaborator. -/
inductive LogEvent
  | mc_warn
  | mc_error
  deriving DecidableEq, Repr

/-- What a call of the component can observe and change outside its arguments:
the runtime's sticky last error, the native calls issued so far and the
diagnostics emitted so far. -/
structure World where
  last_error : cudaError_t
  calls : List NativeCall
  log : List LogEvent
  deriving DecidableEq, Repr

/-- Result of a function that contains `ucc_assert`: the assertion aborted the
process, or the function returned. -/
inductive Outcome (α : Type)
  | assert_failed
  | ret (a : α)
  deriving DecidableEq, Repr

/-! ## Native calls and macros -/

/-- A CUDA runtime call `c` that returned `st`: it is recorded, and a failure
becomes the sticky last error. -/
def rt_call (c : NativeCall) (st : cudaError_t) (w : World) : World :=
  { w with calls := w.calls ++ [c],
           last_error := if st ≠ cudaSuccess then st else w.last_error }

/-- A CUDA driver call `c`: it is recorded; its error is reported through its
`CUresult` only. -/
def drv_call (c : NativeCall) (w : World) : World :=
  { w with calls := w.calls ++ [c] }

/-- The runtime call `cudaGetLastError()`: resets the sticky last error. -/
def cudaGetLastError (w : World) : World :=
  { w with calls := w.calls ++ [NativeCall.cudaGetLastError], last_error := cudaSuccess }

/-- Modelled from the spec: the macros `mc_error` and `mc_warn` of the component
framework, whose definition is outside `mc_cuda.c`; the core "only emits
structured error/warning events" to an external sink: one diagnostic is
appended to the log. -/
def mc_log (e : LogEvent) (w : World) : World :=
  { w with log := w.log ++ [e] }

/-- Modelled from the spec: the macro `ucc_assert(cond)`, whose definition is
outside `mc_cuda.c`; a contract violation is "a fatal assertion, not a
recoverable error". When assertions are compiled in (`assert_enabled`) and
`cond` is false the process aborts; otherwise, and always when assertions are
compiled out, execution continues with `k`. -/
def ucc_assert {α : Type} (assert_enabled : Bool) (cond : Bool) (k : Outcome α) : Outcome α :=
  if assert_enabled && !cond then Outcome.assert_failed else k

/-- Modelled from the spec: the macro `CUDACHECK(cmd)` of `mc_cuda.h`, which is
outside `mc_cuda.c`; "any native failure during init is fatal to the instance
(propagated)" and "a diagnostic is emitted to the logging collaborator". `st` is
what `cmd` returned: on failure one error is logged and the enclosing function
returns through `on_error`, on success execution continues with `k`. -/
def CUDACHECK {α : Type} (st : cudaError_t) (w : World) (on_error : World → α)
    (k : World → α) : α :=
  if st ≠ cudaSuccess then on_error (mc_log LogEvent.mc_error w) else k w

/-- Conversion of an `int` to `unsigned long` (64 bits), as the usual arithmetic
conversions do in `int < unsigned long` and in an assignment. -/
def to_ulong (x : Int) : Nat := (x % (2 ^ 64 : Int)).toNat

/-- The native calls issued between world `w0` and the later world `w1`. -/
def issued (w0 w1 : World) : List NativeCall := w1.calls.drop w0.calls.length

/-! ## The component -/

open ucc_status_t ucc_memory_type_t cudaMemcpyKind cudaMemoryType

/-- Function `ucc_mc_cuda_init` (lines 23-41): `r_device`, `r_prop` and `r_stream` are what
`cudaGetDevice`, `cudaGetDeviceProperties` and `cudaStreamCreate` return and
store; `chk_err` is the status `CUDACHECK` returns. The second component of the
result is the instance after the call. -/
def ucc_mc_cuda_init (UCC_ULUNITS_AUTO : Nat) (chk_err : ucc_status_t)
    (r_device : cudaError_t × Int) (r_prop : cudaError_t × cudaDeviceProp)
    (r_stream : cudaError_t × Nat)
    (self : ucc_mc_cuda_t) (w : World) : ucc_status_t × ucc_mc_cuda_t × World :=
  let cfg := self.cfg
  let w := rt_call NativeCall.cudaGetDevice r_device.1 w
  CUDACHECK r_device.1 w (fun w => (chk_err, self, w)) fun w =>
  let w := rt_call NativeCall.cudaGetDeviceProperties r_prop.1 w
  CUDACHECK r_prop.1 w (fun w => (chk_err, self, w)) fun w =>
  let prop := r_prop.2
  let cfg := { cfg with reduce_num_threads := prop.maxThreadsPerBlock }
  let (cfg, w) :=
    if cfg.reduce_num_blocks ≠ UCC_ULUNITS_AUTO then
      if to_ulong prop.maxGridSize0 < cfg.reduce_num_blocks then
        ({ cfg with reduce_num_blocks := to_ulong prop.maxGridSize0 },
         mc_log LogEvent.mc_warn w)
      else (cfg, w)
    else (cfg, w)
  let w := rt_call NativeCall.cudaStreamCreate r_stream.1 w
  CUDACHECK r_stream.1 w (fun w => (chk_err, { self with cfg := cfg }, w)) fun w =>
  (UCC_OK, { cfg := cfg, stream := some r_stream.2 }, w)

/-- Function `ucc_mc_cuda_mem_alloc` (lines 49-63): `r_malloc` is what `cudaMalloc` returns
and the address it stores on success; the second component of the result is
`*ptr` after the call. -/
def ucc_mc_cuda_mem_alloc (ptr : Nat) (size : Nat) (r_malloc : cudaError_t × Nat)
    (w : World) : ucc_status_t × Nat × World :=
  let st := r_malloc.1
  let w := rt_call (NativeCall.cudaMalloc size) st w
  if st ≠ cudaSuccess then
    (UCC_ERR_NO_MEMORY, ptr, mc_log LogEvent.mc_error (cudaGetLastError w))
  else
    (UCC_OK, r_malloc.2, w)

/-- Function `ucc_mc_cuda_mem_free` (lines 65-79): `r_free` is what `cudaFree` returns. -/
def ucc_mc_cuda_mem_free (ptr : Nat) (r_free : cudaError_t) (w : World) :
    ucc_status_t × World :=
  let st := r_free
  let w := rt_call (NativeCall.cudaFree ptr) st w
  if st ≠ cudaSuccess then
    (UCC_ERR_NO_MESSAGE, mc_log LogEvent.mc_error (cudaGetLastError w))
  else
    (UCC_OK, w)

/-- Function `ucc_mc_cuda_memcpy_kind_map` (lines 81-102): `kind` is the content of `*kind`
on entry (`none` when uninitialised); the result carries the status and the
content of `*kind` on return. -/
def ucc_mc_cuda_memcpy_kind_map (assert_enabled : Bool)
    (dst_mem src_mem : ucc_memory_type_t) (kind : Option cudaMemcpyKind) :
    Outcome (ucc_status_t × Option cudaMemcpyKind) :=
  match dst_mem with
  | UCC_MEMORY_TYPE_HOST =>
    ucc_assert assert_enabled (src_mem == UCC_MEMORY_TYPE_CUDA)
      (Outcome.ret (UCC_OK, some cudaMemcpyDeviceToHost))
  | UCC_MEMORY_TYPE_CUDA =>
    ucc_assert assert_enabled
      (src_mem == UCC_MEMORY_TYPE_CUDA || src_mem == UCC_MEMORY_TYPE_HOST)
      (Outcome.ret (UCC_OK,
        some (if src_mem = UCC_MEMORY_TYPE_HOST then cudaMemcpyHostToDevice
              else cudaMemcpyDeviceToDevice)))
  | _ => Outcome.ret (UCC_ERR_INVALID_PARAM, kind)

/-- Function `ucc_mc_cuda_memcpy` (lines 104-139): `r_copy` is what `cudaMemcpyAsync`
returns and `r_sync` what `cudaStreamSynchronize` returns. -/
def ucc_mc_cuda_memcpy (assert_enabled : Bool) (dst src len : Nat)
    (dst_mem src_mem : ucc_memory_type_t) (r_copy r_sync : cudaError_t) (w : World) :
    Outcome (ucc_status_t × World) :=
  ucc_assert assert_enabled
    (dst_mem == UCC_MEMORY_TYPE_CUDA || src_mem == UCC_MEMORY_TYPE_CUDA)
    (match ucc_mc_cuda_memcpy_kind_map assert_enabled dst_mem src_mem none with
     | Outcome.assert_failed => Outcome.assert_failed
     | Outcome.ret (status, kind) =>
       if status ≠ UCC_OK then
         Outcome.ret (status, mc_log LogEvent.mc_error w)
       else
         let w := rt_call (NativeCall.cudaMemcpyAsync dst src len kind) r_copy w
         if r_copy ≠ cudaSuccess then
           Outcome.ret (UCC_ERR_NO_MESSAGE, mc_log LogEvent.mc_error (cudaGetLastError w))
         else
           let w := rt_call NativeCall.cudaStreamSynchronize r_sync w
           if r_sync ≠ cudaSuccess then
             Outcome.ret (UCC_ERR_NO_MESSAGE,
               mc_log LogEvent.mc_error (cudaGetLastError w))
           else
             Outcome.ret (UCC_OK, w))

/-- The kind mapping inside `ucc_mc_cuda_mem_query` (lines 167-194), selected at
compile time by `CUDART_VERSION`; `none` is the `return UCC_ERR_NOT_SUPPORTED`
of the unrecognised case. -/
def query_mem_type (CUDART_VERSION : Nat) (attr : cudaPointerAttributes) :
    Option ucc_memory_type_t :=
  if CUDART_VERSION ≥ 10000 then
    match attr.type with
    | cudaMemoryTypeHost => some UCC_MEMORY_TYPE_HOST
    | cudaMemoryTypeDevice => some UCC_MEMORY_TYPE_CUDA
    | cudaMemoryTypeManaged => some UCC_MEMORY_TYPE_CUDA_MANAGED
    | _ => none
  else
    if attr.memoryType = cudaMemoryTypeDevice then
      if attr.isManaged ≠ 0 then some UCC_MEMORY_TYPE_CUDA_MANAGED
      else some UCC_MEMORY_TYPE_CUDA
    else if attr.memoryType = cudaMemoryTypeHost then some UCC_MEMORY_TYPE_HOST
    else none

/-- Function `ucc_mc_cuda_mem_query` (lines 141-215): `r_attr` is what
`cudaPointerGetAttributes` returns and the attributes it stores, `r_range` what
`cuMemGetAddressRange` returns and the base address and length it stores. The
second component of the result is `*mem_attr` after the call. -/
def ucc_mc_cuda_mem_query (F : ucc_mem_attr_field) (CUDART_VERSION : Nat)
    (ptr length : Nat) (mem_attr : ucc_mem_attr_t)
    (r_attr : cudaError_t × cudaPointerAttributes) (r_range : CUresult × Nat × Nat)
    (w : World) : ucc_status_t × ucc_mem_attr_t × World :=
  let _ := length  -- `length` is never read
  if mem_attr.field_mask &&& (F.UCC_MEM_ATTR_FIELD_MEM_TYPE |||
                              F.UCC_MEM_ATTR_FIELD_BASE_ADDRESS |||
                              F.UCC_MEM_ATTR_FIELD_ALLOC_LENGTH) = 0 then
    (UCC_OK, mem_attr, w)
  else if ptr = 0 then
    -- `mem_type = UCC_MEMORY_TYPE_HOST;` assigns the local variable only
    let _mem_type : ucc_memory_type_t := UCC_MEMORY_TYPE_HOST
    (UCC_OK, mem_attr, w)
  else
    let kind_step : Except (ucc_status_t × ucc_mem_attr_t × World) (ucc_mem_attr_t × World) :=
      if mem_attr.field_mask &&& F.UCC_MEM_ATTR_FIELD_MEM_TYPE ≠ 0 then
        let st := r_attr.1
        let w := rt_call (NativeCall.cudaPointerGetAttributes ptr) st w
        if st ≠ cudaSuccess then
          Except.error (UCC_ERR_NOT_SUPPORTED, mem_attr, cudaGetLastError w)
        else
          match query_mem_type CUDART_VERSION r_attr.2 with
          | none => Except.error (UCC_ERR_NOT_SUPPORTED, mem_attr, w)
          | some mem_type => Except.ok ({ mem_attr with mem_type := mem_type }, w)
      else Except.ok (mem_attr, w)
    match kind_step with
    | Except.error r => r
    | Except.ok (mem_attr, w) =>
      if mem_attr.field_mask &&& (F.UCC_MEM_ATTR_FIELD_ALLOC_LENGTH |||
                                  F.UCC_MEM_ATTR_FIELD_BASE_ADDRESS) ≠ 0 then
        let cu_err := r_range.1
        let w := drv_call (NativeCall.cuMemGetAddressRange ptr) w
        if cu_err ≠ CUDA_SUCCESS then
          (UCC_ERR_NOT_SUPPORTED, mem_attr, mc_log LogEvent.mc_error w)
        else
          (UCC_OK, { mem_attr with base_address := r_range.2.1,
                                   alloc_length := r_range.2.2 }, w)
      else
        (UCC_OK, mem_attr, w)

/-- The legal pairings of section 4.1 of the specification, as (dst, src):
(Host, Device), (Device, Device) and (Device, Host). -/
def legal_pairing (dst_mem src_mem : ucc_memory_type_t) : Bool :=
  (dst_mem == UCC_MEMORY_TYPE_HOST && src_mem == UCC_MEMORY_TYPE_CUDA) ||
  (dst_mem == UCC_MEMORY_TYPE_CUDA &&
    (src_mem == UCC_MEMORY_TYPE_CUDA || src_mem == UCC_MEMORY_TYPE_HOST))

/-- The correspondence between the description of one allocation by the newer
runtime (`type`) and by the older runtime (`memoryType`, `isManaged`). -/
def attr_corresponds (type memoryType : cudaMemoryType) (isManaged : Int) : Prop :=
  (type = cudaMemoryTypeHost ∧ memoryType = cudaMemoryTypeHost ∧ isManaged = 0) ∨
  (type = cudaMemoryTypeDevice ∧ memoryType = cudaMemoryTypeDevice ∧ isManaged = 0) ∨
  (type = cudaMemoryTypeManaged ∧ memoryType = cudaMemoryTypeDevice ∧ isManaged ≠ 0) ∨
  ((type ≠ cudaMemoryTypeHost ∧ type ≠ cudaMemoryTypeDevice ∧
      type ≠ cudaMemoryTypeManaged) ∧
    (memoryType ≠ cudaMemoryTypeHost ∧ memoryType ≠ cudaMemoryTypeDevice))

/-- A layout of the `ucc_mem_attr_field` bits used for concrete evaluations:
three distinct single bits. -/
def sample_fields : ucc_mem_attr_field :=
  { UCC_MEM_ATTR_FIELD_MEM_TYPE := 1,
    UCC_MEM_ATTR_FIELD_BASE_ADDRESS := 4,
    UCC_MEM_ATTR_FIELD_ALLOC_LENGTH := 8 }

/-- The kind the specification assigns to an allocation of native type `t`:
Host, Device, DeviceManaged, or none (NotSupported) for any other type. -/
def spec_memory_kind (t : cudaMemoryType) : Option ucc_memory_type_t :=
  match t with
  | cudaMemoryTypeHost => some UCC_MEMORY_TYPE_HOST
  | cudaMemoryTypeDevice => some UCC_MEMORY_TYPE_CUDA
  | cudaMemoryTypeManaged => some UCC_MEMORY_TYPE_CUDA_MANAGED
  | cudaMemoryTypeUnregistered => none

/-! ## Auxiliary facts -/

/-- A bitwise or is zero exactly when both operands are. -/
theorem lor_eq_zero_iff (a b : Nat) : a ||| b = 0 ↔ a = 0 ∧ b = 0 := by
  constructor
  · intro h
    constructor
    · apply Nat.eq_of_testBit_eq
      intro i
      have := congrArg (fun n => Nat.testBit n i) h
      simp only [Nat.testBit_or, Nat.zero_testBit, Bool.or_eq_false_iff] at this
      simp [this.1]
    · apply Nat.eq_of_testBit_eq
      intro i
      have := congrArg (fun n => Nat.testBit n i) h
      simp only [Nat.testBit_or, Nat.zero_testBit, Bool.or_eq_false_iff] at this
      simp [this.2]
  · rintro ⟨rfl, rfl⟩
    rfl

/-- A mask misses `a ||| b` exactly when it misses `a` and misses `b`. -/
theorem land_lor_eq_zero_iff (m a b : Nat) :
    m &&& (a ||| b) = 0 ↔ m &&& a = 0 ∧ m &&& b = 0 := by
  rw [Nat.and_or_distrib_left, lor_eq_zero_iff]

/-- Nothing is issued between a world and itself. -/
theorem issued_self (w : World) : issued w w = [] := by
  simp [issued]

/-! ## The copy-kind resolver -/

/-- C1 (as amended): the resolver returns success with DeviceToHost for
(Host, Device), DeviceToDevice for (Device, Device) and HostToDevice for
(Device, Host) whether assertions are compiled in or not; it returns
`UCC_ERR_INVALID_PARAM`, leaving `*kind` as it was, for every pairing whose
destination is neither Host nor Device; and for the remaining pairings
(dst = Host with src other than Device, dst = Device with src other than Device
and Host) it never returns `UCC_ERR_INVALID_PARAM`: they are guarded by an
assertion, which aborts the call when assertions are compiled in. -/
theorem kind_map_table (assert_enabled : Bool) (dst_mem src_mem : ucc_memory_type_t)
    (kind : Option cudaMemcpyKind) :
    ucc_mc_cuda_memcpy_kind_map assert_enabled UCC_MEMORY_TYPE_HOST UCC_MEMORY_TYPE_CUDA kind
        = Outcome.ret (UCC_OK, some cudaMemcpyDeviceToHost) ∧
    ucc_mc_cuda_memcpy_kind_map assert_enabled UCC_MEMORY_TYPE_CUDA UCC_MEMORY_TYPE_CUDA kind
        = Outcome.ret (UCC_OK, some cudaMemcpyDeviceToDevice) ∧
    ucc_mc_cuda_memcpy_kind_map assert_enabled UCC_MEMORY_TYPE_CUDA UCC_MEMORY_TYPE_HOST kind
        = Outcome.ret (UCC_OK, some cudaMemcpyHostToDevice) ∧
    ((dst_mem ≠ UCC_MEMORY_TYPE_HOST ∧ dst_mem ≠ UCC_MEMORY_TYPE_CUDA) →
      ucc_mc_cuda_memcpy_kind_map assert_enabled dst_mem src_mem kind
        = Outcome.ret (UCC_ERR_INVALID_PARAM, kind)) ∧
    ((dst_mem = UCC_MEMORY_TYPE_HOST ∨ dst_mem = UCC_MEMORY_TYPE_CUDA) →
      legal_pairing dst_mem src_mem = false →
      (∀ k, ucc_mc_cuda_memcpy_kind_map assert_enabled dst_mem src_mem kind
          ≠ Outcome.ret (UCC_ERR_INVALID_PARAM, k)) ∧
      ucc_mc_cuda_memcpy_kind_map true dst_mem src_mem kind = Outcome.assert_failed) := by
  refine ⟨?_, ?_, ?_, ?_, ?_⟩
  · cases assert_enabled <;> rfl
  · cases assert_enabled <;> rfl
  · cases assert_enabled <;> rfl
  · rintro ⟨h1, h2⟩
    cases dst_mem <;> first | exact absurd rfl h1 | exact absurd rfl h2 | rfl
  · intro hd hl
    rcases hd with rfl | rfl <;> cases src_mem <;> cases assert_enabled <;>
      simp_all [legal_pairing, ucc_mc_cuda_memcpy_kind_map, ucc_assert]

/-- C1, counterexample: for the pairing (Host, Host) the resolver does not return
`UCC_ERR_INVALID_PARAM`: without assertions it returns success with mode
DeviceToHost, with assertions it aborts. -/
theorem kind_map_host_host_not_rejected :
    ucc_mc_cuda_memcpy_kind_map false UCC_MEMORY_TYPE_HOST UCC_MEMORY_TYPE_HOST none
        = Outcome.ret (UCC_OK, some cudaMemcpyDeviceToHost) ∧
    ucc_mc_cuda_memcpy_kind_map true UCC_MEMORY_TYPE_HOST UCC_MEMORY_TYPE_HOST none
        = Outcome.assert_failed := by
  constructor <;> rfl

/-! ## The transfer engine -/

/-- C5: a copy request that satisfies the copy precondition (one side is the
Device kind) and whose pairing the resolver rejects with status `st` returns
exactly `st` and issues no native call: the world changes by one error
diagnostic only. -/
theorem memcpy_rejected_no_native_call (assert_enabled : Bool) (dst src len : Nat)
    (dst_mem src_mem : ucc_memory_type_t) (r_copy r_sync : cudaError_t) (w : World)
    (st : ucc_status_t) (k : Option cudaMemcpyKind)
    (hpre : dst_mem = UCC_MEMORY_TYPE_CUDA ∨ src_mem = UCC_MEMORY_TYPE_CUDA)
    (hmap : ucc_mc_cuda_memcpy_kind_map assert_enabled dst_mem src_mem none
              = Outcome.ret (st, k))
    (hrej : st ≠ UCC_OK) :
    ucc_mc_cuda_memcpy assert_enabled dst src len dst_mem src_mem r_copy r_sync w
        = Outcome.ret (st, mc_log LogEvent.mc_error w) ∧
    issued w (mc_log LogEvent.mc_error w) = [] ∧
    (mc_log LogEvent.mc_error w).last_error = w.last_error := by
  refine ⟨?_, by simp [issued, mc_log], rfl⟩
  have hc : (dst_mem == UCC_MEMORY_TYPE_CUDA || src_mem == UCC_MEMORY_TYPE_CUDA) = true := by
    rcases hpre with h | h <;> simp [h]
  simp [ucc_mc_cuda_memcpy, ucc_assert, hc, hmap, hrej]

/-- C5, witness: dst = DeviceManaged, src = Device is rejected with
`UCC_ERR_INVALID_PARAM` and no native call. -/
theorem memcpy_rejected_no_native_call_witness :
    ucc_mc_cuda_memcpy true 4096 8192 16 UCC_MEMORY_TYPE_CUDA_MANAGED UCC_MEMORY_TYPE_CUDA
        0 0 ⟨0, [], []⟩
      = Outcome.ret (UCC_ERR_INVALID_PARAM, mc_log LogEvent.mc_error ⟨0, [], []⟩) ∧
    issued ⟨0, [], []⟩ (mc_log LogEvent.mc_error ⟨0, [], []⟩) = [] ∧
    (mc_log LogEvent.mc_error ⟨0, [], []⟩).last_error = (⟨0, [], []⟩ : World).last_error :=
  memcpy_rejected_no_native_call true 4096 8192 16 UCC_MEMORY_TYPE_CUDA_MANAGED
    UCC_MEMORY_TYPE_CUDA 0 0 ⟨0, [], []⟩ UCC_ERR_INVALID_PARAM none
    (Or.inr rfl) rfl (by decide)

/-- C1 (as amended), witness: (DeviceManaged, Device) is rejected, and
(Device, DeviceManaged) is not rejected but aborts under assertions. -/
theorem kind_map_table_witness :
    ucc_mc_cuda_memcpy_kind_map false UCC_MEMORY_TYPE_CUDA_MANAGED UCC_MEMORY_TYPE_CUDA none
        = Outcome.ret (UCC_ERR_INVALID_PARAM, none) ∧
    ((∀ k, ucc_mc_cuda_memcpy_kind_map false UCC_MEMORY_TYPE_CUDA
            UCC_MEMORY_TYPE_CUDA_MANAGED none ≠ Outcome.ret (UCC_ERR_INVALID_PARAM, k)) ∧
      ucc_mc_cuda_memcpy_kind_map true UCC_MEMORY_TYPE_CUDA UCC_MEMORY_TYPE_CUDA_MANAGED none
        = Outcome.assert_failed) :=
  ⟨(kind_map_table false UCC_MEMORY_TYPE_CUDA_MANAGED UCC_MEMORY_TYPE_CUDA none).2.2.2.1
      ⟨by decide, by decide⟩,
   (kind_map_table false UCC_MEMORY_TYPE_CUDA UCC_MEMORY_TYPE_CUDA_MANAGED none).2.2.2.2
      (Or.inr rfl) rfl⟩

/-! ## The pointer introspector -/

/-- C9: with a field mask that contains none of MEM_TYPE, BASE_ADDRESS and
ALLOC_LENGTH, a query of any pointer returns success, issues no native call and
leaves the attribute record (and the whole world) unchanged. -/
theorem mem_query_empty_mask (F : ucc_mem_attr_field) (CUDART_VERSION : Nat)
    (ptr length : Nat) (mem_attr : ucc_mem_attr_t)
    (r_attr : cudaError_t × cudaPointerAttributes) (r_range : CUresult × Nat × Nat)
    (w : World)
    (hmt : mem_attr.field_mask &&& F.UCC_MEM_ATTR_FIELD_MEM_TYPE = 0)
    (hba : mem_attr.field_mask &&& F.UCC_MEM_ATTR_FIELD_BASE_ADDRESS = 0)
    (hal : mem_attr.field_mask &&& F.UCC_MEM_ATTR_FIELD_ALLOC_LENGTH = 0) :
    (ucc_mc_cuda_mem_query F CUDART_VERSION ptr length mem_attr r_attr r_range w).1 = UCC_OK ∧
    issued w (ucc_mc_cuda_mem_query F CUDART_VERSION ptr length mem_attr r_attr r_range w).2.2
        = [] ∧
    (ucc_mc_cuda_mem_query F CUDART_VERSION ptr length mem_attr r_attr r_range w).2.1
        = mem_attr ∧
    (ucc_mc_cuda_mem_query F CUDART_VERSION ptr length mem_attr r_attr r_range w).2.2 = w := by
  have h : mem_attr.field_mask &&& (F.UCC_MEM_ATTR_FIELD_MEM_TYPE |||
      F.UCC_MEM_ATTR_FIELD_BASE_ADDRESS ||| F.UCC_MEM_ATTR_FIELD_ALLOC_LENGTH) = 0 := by
    rw [land_lor_eq_zero_iff, land_lor_eq_zero_iff]
    exact ⟨⟨hmt, hba⟩, hal⟩
  simp [ucc_mc_cuda_mem_query, h, issued_self]

/-- C9, witness: mask 2 (no recognised bit) on a non-null pointer whose native
queries would both fail. -/
theorem mem_query_empty_mask_witness :
    (ucc_mc_cuda_mem_query sample_fields 11000 4096 16
        ⟨2, UCC_MEMORY_TYPE_CUDA, 7, 9⟩ (1, ⟨cudaMemoryTypeHost, cudaMemoryTypeHost, 0⟩)
        (1, 0, 0) ⟨5, [], []⟩).1 = UCC_OK ∧
    issued ⟨5, [], []⟩ (ucc_mc_cuda_mem_query sample_fields 11000 4096 16
        ⟨2, UCC_MEMORY_TYPE_CUDA, 7, 9⟩ (1, ⟨cudaMemoryTypeHost, cudaMemoryTypeHost, 0⟩)
        (1, 0, 0) ⟨5, [], []⟩).2.2 = [] ∧
    (ucc_mc_cuda_mem_query sample_fields 11000 4096 16
        ⟨2, UCC_MEMORY_TYPE_CUDA, 7, 9⟩ (1, ⟨cudaMemoryTypeHost, cudaMemoryTypeHost, 0⟩)
        (1, 0, 0) ⟨5, [], []⟩).2.1 = ⟨2, UCC_MEMORY_TYPE_CUDA, 7, 9⟩ ∧
    (ucc_mc_cuda_mem_query sample_fields 11000 4096 16
        ⟨2, UCC_MEMORY_TYPE_CUDA, 7, 9⟩ (1, ⟨cudaMemoryTypeHost, cudaMemoryTypeHost, 0⟩)
        (1, 0, 0) ⟨5, [], []⟩).2.2 = ⟨5, [], []⟩ :=
  mem_query_empty_mask sample_fields 11000 4096 16 ⟨2, UCC_MEMORY_TYPE_CUDA, 7, 9⟩
    (1, ⟨cudaMemoryTypeHost, cudaMemoryTypeHost, 0⟩) (1, 0, 0) ⟨5, [], []⟩
    (by decide) (by decide) (by decide)

/-- C10: for the null pointer and every field mask, a query returns success,
issues no native call and returns the attribute record exactly as it was passed
in (so a requested kind or address range is reported as success without being
populated). -/
theorem mem_query_null_unchanged (F : ucc_mem_attr_field) (CUDART_VERSION : Nat)
    (length : Nat) (mem_attr : ucc_mem_attr_t)
    (r_attr : cudaError_t × cudaPointerAttributes) (r_range : CUresult × Nat × Nat)
    (w : World) :
    ucc_mc_cuda_mem_query F CUDART_VERSION 0 length mem_attr r_attr r_range w
        = (UCC_OK, mem_attr, w) ∧
    issued w (ucc_mc_cuda_mem_query F CUDART_VERSION 0 length mem_attr r_attr r_range w).2.2
        = [] := by
  have h : ucc_mc_cuda_mem_query F CUDART_VERSION 0 length mem_attr r_attr r_range w
      = (UCC_OK, mem_attr, w) := by
    simp [ucc_mc_cuda_mem_query]
  rw [h]
  exact ⟨rfl, issued_self w⟩

/-- C3, evaluation at the failing input: the null pointer queried with MEM_TYPE
requested and a record whose `mem_type` is Device returns success without a
native call, and the record still says Device, not Host. -/
theorem mem_query_null_mem_type_not_host :
    ucc_mc_cuda_mem_query sample_fields 11000 0 0 ⟨1, UCC_MEMORY_TYPE_CUDA, 0, 0⟩
        (0, ⟨cudaMemoryTypeHost, cudaMemoryTypeHost, 0⟩) (0, 0, 0) ⟨0, [], []⟩
      = (UCC_OK, ⟨1, UCC_MEMORY_TYPE_CUDA, 0, 0⟩, ⟨0, [], []⟩) ∧
    (ucc_mc_cuda_mem_query sample_fields 11000 0 0 ⟨1, UCC_MEMORY_TYPE_CUDA, 0, 0⟩
        (0, ⟨cudaMemoryTypeHost, cudaMemoryTypeHost, 0⟩) (0, 0, 0) ⟨0, [], []⟩).2.1.mem_type
      ≠ UCC_MEMORY_TYPE_HOST := by
  constructor
  · rfl
  · decide

/-- C2 (as amended): a query never changes the field mask; it leaves `mem_type`
unchanged unless MEM_TYPE is requested; it leaves `base_address` and
`alloc_length` unchanged unless at least one of BASE_ADDRESS and ALLOC_LENGTH is
requested; and when either of the two is requested on a non-null pointer and the
query succeeds, both fields are written together from the address range. -/
theorem mem_query_frame (F : ucc_mem_attr_field) (CUDART_VERSION : Nat)
    (ptr length : Nat) (mem_attr : ucc_mem_attr_t)
    (r_attr : cudaError_t × cudaPointerAttributes) (r_range : CUresult × Nat × Nat)
    (w : World) :
    (ucc_mc_cuda_mem_query F CUDART_VERSION ptr length mem_attr r_attr r_range w).2.1.field_mask
        = mem_attr.field_mask ∧
    (mem_attr.field_mask &&& F.UCC_MEM_ATTR_FIELD_MEM_TYPE = 0 →
      (ucc_mc_cuda_mem_query F CUDART_VERSION ptr length mem_attr r_attr r_range w).2.1.mem_type
        = mem_attr.mem_type) ∧
    (mem_attr.field_mask &&& F.UCC_MEM_ATTR_FIELD_BASE_ADDRESS = 0 →
      mem_attr.field_mask &&& F.UCC_MEM_ATTR_FIELD_ALLOC_LENGTH = 0 →
      (ucc_mc_cuda_mem_query F CUDART_VERSION ptr length mem_attr r_attr r_range
          w).2.1.base_address = mem_attr.base_address ∧
      (ucc_mc_cuda_mem_query F CUDART_VERSION ptr length mem_attr r_attr r_range
          w).2.1.alloc_length = mem_attr.alloc_length) ∧
    (ptr ≠ 0 →
      (mem_attr.field_mask &&& F.UCC_MEM_ATTR_FIELD_BASE_ADDRESS ≠ 0 ∨
        mem_attr.field_mask &&& F.UCC_MEM_ATTR_FIELD_ALLOC_LENGTH ≠ 0) →
      (ucc_mc_cuda_mem_query F CUDART_VERSION ptr length mem_attr r_attr r_range w).1
        = UCC_OK →
      (ucc_mc_cuda_mem_query F CUDART_VERSION ptr length mem_attr r_attr r_range
          w).2.1.base_address = r_range.2.1 ∧
      (ucc_mc_cuda_mem_query F CUDART_VERSION ptr length mem_attr r_attr r_range
          w).2.1.alloc_length = r_range.2.2) := by
  have hr : ∀ m : Nat, (m &&& (F.UCC_MEM_ATTR_FIELD_ALLOC_LENGTH |||
      F.UCC_MEM_ATTR_FIELD_BASE_ADDRESS) = 0) ↔
      (m &&& F.UCC_MEM_ATTR_FIELD_BASE_ADDRESS = 0 ∧
        m &&& F.UCC_MEM_ATTR_FIELD_ALLOC_LENGTH = 0) := by
    intro m
    rw [land_lor_eq_zero_iff]
    exact and_comm
  have ha : mem_attr.field_mask &&& (F.UCC_MEM_ATTR_FIELD_MEM_TYPE |||
      F.UCC_MEM_ATTR_FIELD_BASE_ADDRESS ||| F.UCC_MEM_ATTR_FIELD_ALLOC_LENGTH) = 0 ↔
      (mem_attr.field_mask &&& F.UCC_MEM_ATTR_FIELD_MEM_TYPE = 0 ∧
        mem_attr.field_mask &&& F.UCC_MEM_ATTR_FIELD_BASE_ADDRESS = 0) ∧
        mem_attr.field_mask &&& F.UCC_MEM_ATTR_FIELD_ALLOC_LENGTH = 0 := by
    rw [land_lor_eq_zero_iff, land_lor_eq_zero_iff]
  by_cases hmt : mem_attr.field_mask &&& F.UCC_MEM_ATTR_FIELD_MEM_TYPE = 0 <;>
  by_cases hba : mem_attr.field_mask &&& F.UCC_MEM_ATTR_FIELD_BASE_ADDRESS = 0 <;>
  by_cases hal : mem_attr.field_mask &&& F.UCC_MEM_ATTR_FIELD_ALLOC_LENGTH = 0 <;>
  by_cases hp : ptr = 0 <;>
  by_cases hst : r_attr.1 = cudaSuccess <;>
  by_cases hcu : r_range.1 = CUDA_SUCCESS <;>
  cases hk : query_mem_type CUDART_VERSION r_attr.2 <;>
  simp [ucc_mc_cuda_mem_query, hr, ha, hmt, hba, hal, hp, hst, hcu, hk]

/-- C2 (as amended), witness: with only ALLOC_LENGTH requested `mem_type` is kept;
with only MEM_TYPE requested `base_address` and `alloc_length` are kept; with
only ALLOC_LENGTH requested and a successful range query both are written. -/
theorem mem_query_frame_witness :
    (ucc_mc_cuda_mem_query sample_fields 11000 4096 16 ⟨8, UCC_MEMORY_TYPE_HOST, 7, 9⟩
        (0, ⟨cudaMemoryTypeDevice, cudaMemoryTypeDevice, 0⟩) (0, 4000, 512) ⟨0, [], []⟩).2.1.mem_type = UCC_MEMORY_TYPE_HOST ∧
    ((ucc_mc_cuda_mem_query sample_fields 11000 4096 16 ⟨1, UCC_MEMORY_TYPE_HOST, 7, 9⟩
        (0, ⟨cudaMemoryTypeDevice, cudaMemoryTypeDevice, 0⟩) (0, 4000, 512) ⟨0, [], []⟩).2.1.base_address = 7 ∧
      (ucc_mc_cuda_mem_query sample_fields 11000 4096 16 ⟨1, UCC_MEMORY_TYPE_HOST, 7, 9⟩
        (0, ⟨cudaMemoryTypeDevice, cudaMemoryTypeDevice, 0⟩) (0, 4000, 512) ⟨0, [], []⟩).2.1.alloc_length = 9) ∧
    ((ucc_mc_cuda_mem_query sample_fields 11000 4096 16 ⟨8, UCC_MEMORY_TYPE_HOST, 7, 9⟩
        (0, ⟨cudaMemoryTypeDevice, cudaMemoryTypeDevice, 0⟩) (0, 4000, 512) ⟨0, [], []⟩).2.1.base_address = 4000 ∧
      (ucc_mc_cuda_mem_query sample_fields 11000 4096 16 ⟨8, UCC_MEMORY_TYPE_HOST, 7, 9⟩
        (0, ⟨cudaMemoryTypeDevice, cudaMemoryTypeDevice, 0⟩) (0, 4000, 512) ⟨0, [], []⟩).2.1.alloc_length = 512) :=
  ⟨(mem_query_frame sample_fields 11000 4096 16 ⟨8, UCC_MEMORY_TYPE_HOST, 7, 9⟩
      (0, ⟨cudaMemoryTypeDevice, cudaMemoryTypeDevice, 0⟩) (0, 4000, 512) ⟨0, [], []⟩).2.1 (by decide),
   (mem_query_frame sample_fields 11000 4096 16 ⟨1, UCC_MEMORY_TYPE_HOST, 7, 9⟩
      (0, ⟨cudaMemoryTypeDevice, cudaMemoryTypeDevice, 0⟩) (0, 4000, 512) ⟨0, [], []⟩).2.2.1 (by decide) (by decide),
   (mem_query_frame sample_fields 11000 4096 16 ⟨8, UCC_MEMORY_TYPE_HOST, 7, 9⟩
      (0, ⟨cudaMemoryTypeDevice, cudaMemoryTypeDevice, 0⟩) (0, 4000, 512) ⟨0, [], []⟩).2.2.2 (by decide) (Or.inr (by decide)) rfl⟩

/-- C2, counterexample: a non-null pointer queried with only ALLOC_LENGTH
requested (BASE_ADDRESS not requested) has its `base_address` overwritten: the
record held 7 and holds 4000 after the call. -/
theorem mem_query_writes_unrequested_base :
    (⟨8, UCC_MEMORY_TYPE_HOST, 7, 9⟩ : ucc_mem_attr_t).field_mask
        &&& sample_fields.UCC_MEM_ATTR_FIELD_BASE_ADDRESS = 0 ∧
    (⟨8, UCC_MEMORY_TYPE_HOST, 7, 9⟩ : ucc_mem_attr_t).field_mask
        &&& sample_fields.UCC_MEM_ATTR_FIELD_ALLOC_LENGTH ≠ 0 ∧
    ucc_mc_cuda_mem_query sample_fields 11000 4096 16 ⟨8, UCC_MEMORY_TYPE_HOST, 7, 9⟩
        (0, ⟨cudaMemoryTypeDevice, cudaMemoryTypeDevice, 0⟩) (0, 4000, 512) ⟨0, [], []⟩
      = (UCC_OK, ⟨8, UCC_MEMORY_TYPE_HOST, 4000, 512⟩,
          ⟨0, [NativeCall.cuMemGetAddressRange 4096], []⟩) ∧
    (ucc_mc_cuda_mem_query sample_fields 11000 4096 16 ⟨8, UCC_MEMORY_TYPE_HOST, 7, 9⟩
        (0, ⟨cudaMemoryTypeDevice, cudaMemoryTypeDevice, 0⟩) (0, 4000, 512)
        ⟨0, [], []⟩).2.1.base_address
      ≠ (⟨8, UCC_MEMORY_TYPE_HOST, 7, 9⟩ : ucc_mem_attr_t).base_address := by
  refine ⟨by decide, by decide, by rfl, by decide⟩

/-- C8: for an allocation the newer runtime describes by `a_new.type` and the
older runtime by `(a_old.memoryType, a_old.isManaged)`, the two descriptions
corresponding, the branch for `CUDART_VERSION >= 10000` and the older branch map
to the same result, which is the kind the specification assigns (Host, Device,
DeviceManaged) or NotSupported in both; and the whole query returns the same
status, record and world in both builds. -/
theorem query_versions_agree (F : ucc_mem_attr_field) (v_new v_old : Nat)
    (ptr length : Nat) (mem_attr : ucc_mem_attr_t) (st : cudaError_t)
    (a_new a_old : cudaPointerAttributes) (r_range : CUresult × Nat × Nat) (w : World)
    (hnew : v_new ≥ 10000) (hold : v_old < 10000)
    (hcorr : attr_corresponds a_new.type a_old.memoryType a_old.isManaged) :
    query_mem_type v_new a_new = spec_memory_kind a_new.type ∧
    query_mem_type v_old a_old = spec_memory_kind a_new.type ∧
    ucc_mc_cuda_mem_query F v_new ptr length mem_attr (st, a_new) r_range w
      = ucc_mc_cuda_mem_query F v_old ptr length mem_attr (st, a_old) r_range w := by
  have hlt : ¬ v_old ≥ 10000 := by omega
  have h1 : query_mem_type v_new a_new = spec_memory_kind a_new.type := by
    cases ht : a_new.type <;> simp [query_mem_type, spec_memory_kind, hnew, ht]
  have h2 : query_mem_type v_old a_old = spec_memory_kind a_new.type := by
    rcases hcorr with ⟨ht, hm, hi⟩ | ⟨ht, hm, hi⟩ | ⟨ht, hm, hi⟩ | ⟨⟨t1, t2, t3⟩, m1, m2⟩
    · simp [query_mem_type, spec_memory_kind, hlt, ht, hm, hi]
    · simp [query_mem_type, spec_memory_kind, hlt, ht, hm, hi]
    · simp [query_mem_type, spec_memory_kind, hlt, ht, hm, hi]
    · cases ht : a_new.type <;> simp_all [query_mem_type, spec_memory_kind]
  refine ⟨h1, h2, ?_⟩
  simp only [ucc_mc_cuda_mem_query, h1, h2]

/-- C8, witness: a managed allocation, `type = Managed` for the newer runtime and
`(memoryType, isManaged) = (Device, 1)` for the older one. -/
theorem query_versions_agree_witness :
    query_mem_type 11000 ⟨cudaMemoryTypeManaged, cudaMemoryTypeUnregistered, 0⟩
      = spec_memory_kind cudaMemoryTypeManaged ∧
    query_mem_type 9020 ⟨cudaMemoryTypeUnregistered, cudaMemoryTypeDevice, 1⟩
      = spec_memory_kind cudaMemoryTypeManaged ∧
    ucc_mc_cuda_mem_query sample_fields 11000 4096 16 ⟨1, UCC_MEMORY_TYPE_HOST, 0, 0⟩
        (0, ⟨cudaMemoryTypeManaged, cudaMemoryTypeUnregistered, 0⟩) (0, 0, 0) ⟨0, [], []⟩
      = ucc_mc_cuda_mem_query sample_fields 9020 4096 16 ⟨1, UCC_MEMORY_TYPE_HOST, 0, 0⟩
        (0, ⟨cudaMemoryTypeUnregistered, cudaMemoryTypeDevice, 1⟩) (0, 0, 0) ⟨0, [], []⟩ :=
  query_versions_agree sample_fields 11000 9020 4096 16 ⟨1, UCC_MEMORY_TYPE_HOST, 0, 0⟩ 0
    ⟨cudaMemoryTypeManaged, cudaMemoryTypeUnregistered, 0⟩
    ⟨cudaMemoryTypeUnregistered, cudaMemoryTypeDevice, 1⟩ (0, 0, 0) ⟨0, [], []⟩
    (by decide) (by decide) (Or.inr (Or.inr (Or.inl ⟨rfl, rfl, by decide⟩)))

/-! ## Classification of native failures -/

/-- C6: with each native call's result an input, every native failure is returned
as the classified error of its operation, and success only when every native
call issued succeeded. Allocate returns `UCC_ERR_NO_MEMORY` iff `cudaMalloc`
fails (else success); free returns `UCC_ERR_NO_MESSAGE`, which differs from
`UCC_ERR_NO_MEMORY`, iff `cudaFree` fails (else success); copy with a legal
pairing returns `UCC_ERR_NO_MESSAGE` iff the enqueue or the drain fails (else
success), the drain is issued after a successful enqueue and not after a failed
one. Query returns `UCC_ERR_NOT_SUPPORTED` iff the pointer is non-null and
either MEM_TYPE is requested and the attribute query fails or reports an
unrecognised type, or BASE_ADDRESS or ALLOC_LENGTH is requested and the
address-range query fails; otherwise it returns success. The attribute query is
issued iff the pointer is non-null and MEM_TYPE is requested, the address-range
query iff the pointer is non-null, BASE_ADDRESS or ALLOC_LENGTH is requested and
the kind step did not fail; and after a failed attribute query the record is
returned as passed in (no kind is reported). -/
theorem native_failures_classified :
    (∀ (ptr size : Nat) (r_malloc : cudaError_t × Nat) (w : World),
      ((ucc_mc_cuda_mem_alloc ptr size r_malloc w).1 = UCC_ERR_NO_MEMORY
          ↔ r_malloc.1 ≠ cudaSuccess) ∧
      ((ucc_mc_cuda_mem_alloc ptr size r_malloc w).1 = UCC_OK
          ↔ r_malloc.1 = cudaSuccess) ∧
      NativeCall.cudaMalloc size ∈ issued w (ucc_mc_cuda_mem_alloc ptr size r_malloc w).2.2) ∧
    (∀ (ptr : Nat) (r_free : cudaError_t) (w : World),
      ((ucc_mc_cuda_mem_free ptr r_free w).1 = UCC_ERR_NO_MESSAGE
          ↔ r_free ≠ cudaSuccess) ∧
      ((ucc_mc_cuda_mem_free ptr r_free w).1 = UCC_OK ↔ r_free = cudaSuccess) ∧
      UCC_ERR_NO_MESSAGE ≠ UCC_ERR_NO_MEMORY ∧
      NativeCall.cudaFree ptr ∈ issued w (ucc_mc_cuda_mem_free ptr r_free w).2) ∧
    (∀ (assert_enabled : Bool) (dst src len : Nat) (dst_mem src_mem : ucc_memory_type_t)
        (r_copy r_sync : cudaError_t) (w : World),
      legal_pairing dst_mem src_mem = true →
      ∃ status w1,
        ucc_mc_cuda_memcpy assert_enabled dst src len dst_mem src_mem r_copy r_sync w
          = Outcome.ret (status, w1) ∧
        (status = UCC_ERR_NO_MESSAGE ↔ (r_copy ≠ cudaSuccess ∨ r_sync ≠ cudaSuccess)) ∧
        (status = UCC_OK ↔ (r_copy = cudaSuccess ∧ r_sync = cudaSuccess)) ∧
        (r_copy ≠ cudaSuccess → NativeCall.cudaStreamSynchronize ∉ issued w w1) ∧
        (r_copy = cudaSuccess → NativeCall.cudaStreamSynchronize ∈ issued w w1)) ∧
    (∀ (F : ucc_mem_attr_field) (CUDART_VERSION : Nat) (ptr length : Nat)
        (mem_attr : ucc_mem_attr_t) (r_attr : cudaError_t × cudaPointerAttributes)
        (r_range : CUresult × Nat × Nat) (w : World),
      ((ucc_mc_cuda_mem_query F CUDART_VERSION ptr length mem_attr r_attr r_range w).1 = UCC_ERR_NOT_SUPPORTED ↔
        (ptr ≠ 0 ∧
          ((mem_attr.field_mask &&& F.UCC_MEM_ATTR_FIELD_MEM_TYPE ≠ 0 ∧
              (r_attr.1 ≠ cudaSuccess ∨ query_mem_type CUDART_VERSION r_attr.2 = none)) ∨
           ((mem_attr.field_mask &&& F.UCC_MEM_ATTR_FIELD_BASE_ADDRESS ≠ 0 ∨
              mem_attr.field_mask &&& F.UCC_MEM_ATTR_FIELD_ALLOC_LENGTH ≠ 0) ∧
              r_range.1 ≠ CUDA_SUCCESS)))) ∧
      ((ucc_mc_cuda_mem_query F CUDART_VERSION ptr length mem_attr r_attr r_range w).1 = UCC_OK ∨
        (ucc_mc_cuda_mem_query F CUDART_VERSION ptr length mem_attr r_attr r_range w).1 = UCC_ERR_NOT_SUPPORTED) ∧
      (NativeCall.cudaPointerGetAttributes ptr ∈ issued w (ucc_mc_cuda_mem_query F CUDART_VERSION ptr length mem_attr r_attr r_range w).2.2 ↔
        (ptr ≠ 0 ∧ mem_attr.field_mask &&& F.UCC_MEM_ATTR_FIELD_MEM_TYPE ≠ 0)) ∧
      (NativeCall.cuMemGetAddressRange ptr ∈ issued w (ucc_mc_cuda_mem_query F CUDART_VERSION ptr length mem_attr r_attr r_range w).2.2 ↔
        (ptr ≠ 0 ∧
          (mem_attr.field_mask &&& F.UCC_MEM_ATTR_FIELD_BASE_ADDRESS ≠ 0 ∨
            mem_attr.field_mask &&& F.UCC_MEM_ATTR_FIELD_ALLOC_LENGTH ≠ 0) ∧
          (mem_attr.field_mask &&& F.UCC_MEM_ATTR_FIELD_MEM_TYPE = 0 ∨
            (r_attr.1 = cudaSuccess ∧ query_mem_type CUDART_VERSION r_attr.2 ≠ none)))) ∧
      ((ucc_mc_cuda_mem_query F CUDART_VERSION ptr length mem_attr r_attr r_range w).1 = UCC_ERR_NOT_SUPPORTED ↔
        ((NativeCall.cudaPointerGetAttributes ptr ∈ issued w (ucc_mc_cuda_mem_query F CUDART_VERSION ptr length mem_attr r_attr r_range w).2.2 ∧
          (r_attr.1 ≠ cudaSuccess ∨ query_mem_type CUDART_VERSION r_attr.2 = none)) ∨
         (NativeCall.cuMemGetAddressRange ptr ∈ issued w (ucc_mc_cuda_mem_query F CUDART_VERSION ptr length mem_attr r_attr r_range w).2.2 ∧
          r_range.1 ≠ CUDA_SUCCESS))) ∧
      (ptr ≠ 0 → mem_attr.field_mask &&& F.UCC_MEM_ATTR_FIELD_MEM_TYPE ≠ 0 →
        r_attr.1 ≠ cudaSuccess →
        (ucc_mc_cuda_mem_query F CUDART_VERSION ptr length mem_attr r_attr r_range w).1 = UCC_ERR_NOT_SUPPORTED ∧
        (ucc_mc_cuda_mem_query F CUDART_VERSION ptr length mem_attr r_attr r_range w).2.1 = mem_attr)) := by
  refine ⟨?_, ?_, ?_, ?_⟩
  · intro ptr size r_malloc w
    by_cases h : r_malloc.1 = cudaSuccess <;>
      simp [ucc_mc_cuda_mem_alloc, h, issued, rt_call, cudaGetLastError, mc_log]
  · intro ptr r_free w
    by_cases h : r_free = cudaSuccess <;>
      simp [ucc_mc_cuda_mem_free, h, issued, rt_call, cudaGetLastError, mc_log]
  · intro assert_enabled dst src len dst_mem src_mem r_copy r_sync w hl
    by_cases hc : r_copy = cudaSuccess <;> by_cases hs : r_sync = cudaSuccess <;>
      cases dst_mem <;> cases src_mem <;> cases assert_enabled <;>
      simp_all [legal_pairing, ucc_mc_cuda_memcpy, ucc_mc_cuda_memcpy_kind_map, ucc_assert,
        issued, rt_call, cudaGetLastError, mc_log] <;>
      exact ⟨_, _, ⟨rfl, rfl⟩, by simp⟩
  · intro F CUDART_VERSION ptr length mem_attr r_attr r_range w
    have hr : (mem_attr.field_mask &&& (F.UCC_MEM_ATTR_FIELD_ALLOC_LENGTH |||
        F.UCC_MEM_ATTR_FIELD_BASE_ADDRESS) = 0) ↔
        (mem_attr.field_mask &&& F.UCC_MEM_ATTR_FIELD_BASE_ADDRESS = 0 ∧
          mem_attr.field_mask &&& F.UCC_MEM_ATTR_FIELD_ALLOC_LENGTH = 0) := by
      rw [land_lor_eq_zero_iff]
      exact and_comm
    have ha : mem_attr.field_mask &&& (F.UCC_MEM_ATTR_FIELD_MEM_TYPE |||
        F.UCC_MEM_ATTR_FIELD_BASE_ADDRESS ||| F.UCC_MEM_ATTR_FIELD_ALLOC_LENGTH) = 0 ↔
        (mem_attr.field_mask &&& F.UCC_MEM_ATTR_FIELD_MEM_TYPE = 0 ∧
          mem_attr.field_mask &&& F.UCC_MEM_ATTR_FIELD_BASE_ADDRESS = 0) ∧
          mem_attr.field_mask &&& F.UCC_MEM_ATTR_FIELD_ALLOC_LENGTH = 0 := by
      rw [land_lor_eq_zero_iff, land_lor_eq_zero_iff]
    by_cases hmt : mem_attr.field_mask &&& F.UCC_MEM_ATTR_FIELD_MEM_TYPE = 0 <;>
    by_cases hba : mem_attr.field_mask &&& F.UCC_MEM_ATTR_FIELD_BASE_ADDRESS = 0 <;>
    by_cases hal : mem_attr.field_mask &&& F.UCC_MEM_ATTR_FIELD_ALLOC_LENGTH = 0 <;>
    by_cases hp : ptr = 0 <;>
    by_cases hst : r_attr.1 = cudaSuccess <;>
    by_cases hcu : r_range.1 = CUDA_SUCCESS <;>
    cases hk : query_mem_type CUDART_VERSION r_attr.2 <;>
    simp [ucc_mc_cuda_mem_query, hr, ha, hmt, hba, hal, hp, hst, hcu, hk,
      issued, rt_call, drv_call, cudaGetLastError, mc_log]

/-- C6, witness: a Host-to-Device copy whose drain fails with error 3 returns
`UCC_ERR_NO_MESSAGE`, and a query for MEM_TYPE whose attribute query fails with
error 4 returns `UCC_ERR_NOT_SUPPORTED` with the record as passed in; a query
for ALLOC_LENGTH whose address-range query fails, and a query for MEM_TYPE whose
attribute query reports an unregistered pointer, return `UCC_ERR_NOT_SUPPORTED`. -/
theorem native_failures_classified_witness :
    (∃ status w1,
      ucc_mc_cuda_memcpy true 4096 8192 16 UCC_MEMORY_TYPE_CUDA UCC_MEMORY_TYPE_HOST 0 3
          ⟨0, [], []⟩ = Outcome.ret (status, w1) ∧
      (status = UCC_ERR_NO_MESSAGE ↔
        ((0 : cudaError_t) ≠ cudaSuccess ∨ (3 : cudaError_t) ≠ cudaSuccess)) ∧
      (status = UCC_OK ↔ ((0 : cudaError_t) = cudaSuccess ∧ (3 : cudaError_t) = cudaSuccess)) ∧
      ((0 : cudaError_t) ≠ cudaSuccess →
        NativeCall.cudaStreamSynchronize ∉ issued ⟨0, [], []⟩ w1) ∧
      ((0 : cudaError_t) = cudaSuccess →
        NativeCall.cudaStreamSynchronize ∈ issued ⟨0, [], []⟩ w1)) ∧
    ((ucc_mc_cuda_mem_query sample_fields 11000 4096 16 ⟨1, UCC_MEMORY_TYPE_CUDA, 7, 9⟩
        (4, ⟨cudaMemoryTypeDevice, cudaMemoryTypeDevice, 0⟩) (0, 0, 0) ⟨0, [], []⟩).1 = UCC_ERR_NOT_SUPPORTED ∧
      (ucc_mc_cuda_mem_query sample_fields 11000 4096 16 ⟨1, UCC_MEMORY_TYPE_CUDA, 7, 9⟩
        (4, ⟨cudaMemoryTypeDevice, cudaMemoryTypeDevice, 0⟩) (0, 0, 0) ⟨0, [], []⟩).2.1 = ⟨1, UCC_MEMORY_TYPE_CUDA, 7, 9⟩) ∧
    (ucc_mc_cuda_mem_query sample_fields 11000 4096 16 ⟨8, UCC_MEMORY_TYPE_CUDA, 7, 9⟩
        (0, ⟨cudaMemoryTypeDevice, cudaMemoryTypeDevice, 0⟩) (1, 0, 0) ⟨0, [], []⟩).1 = UCC_ERR_NOT_SUPPORTED ∧
    (ucc_mc_cuda_mem_query sample_fields 11000 4096 16 ⟨1, UCC_MEMORY_TYPE_CUDA, 7, 9⟩
        (0, ⟨cudaMemoryTypeUnregistered, cudaMemoryTypeUnregistered, 0⟩) (0, 0, 0) ⟨0, [], []⟩).1 = UCC_ERR_NOT_SUPPORTED :=
  ⟨native_failures_classified.2.2.1 true 4096 8192 16 UCC_MEMORY_TYPE_CUDA
      UCC_MEMORY_TYPE_HOST 0 3 ⟨0, [], []⟩ rfl,
   (native_failures_classified.2.2.2 sample_fields 11000 4096 16
      ⟨1, UCC_MEMORY_TYPE_CUDA, 7, 9⟩ (4, ⟨cudaMemoryTypeDevice, cudaMemoryTypeDevice, 0⟩) (0, 0, 0) ⟨0, [], []⟩).2.2.2.2.2
      (by decide) (by decide) (by decide),
   (native_failures_classified.2.2.2 sample_fields 11000 4096 16
      ⟨8, UCC_MEMORY_TYPE_CUDA, 7, 9⟩ (0, ⟨cudaMemoryTypeDevice, cudaMemoryTypeDevice, 0⟩) (1, 0, 0) ⟨0, [], []⟩).1.mpr
      ⟨by decide, Or.inr ⟨Or.inr (by decide), by decide⟩⟩,
   (native_failures_classified.2.2.2 sample_fields 11000 4096 16
      ⟨1, UCC_MEMORY_TYPE_CUDA, 7, 9⟩ (0, ⟨cudaMemoryTypeUnregistered, cudaMemoryTypeUnregistered, 0⟩) (0, 0, 0) ⟨0, [], []⟩).1.mpr
      ⟨by decide, Or.inl ⟨by decide, Or.inr rfl⟩⟩⟩

/-! ## The sticky last error -/

/-- C7 (as amended): whatever the sticky last error was on entry, every call of
allocate, free, copy or query that returns an error because a runtime call
failed (`cudaMalloc`, `cudaFree`, the copy enqueue, the copy drain,
`cudaPointerGetAttributes`) has called `cudaGetLastError` after the failing
call, and the sticky last error is clear when it returns. For copy this holds
for every kind pairing and build that reaches the enqueue (the function's own
assertion passes or is compiled out and the resolver returns success), and
every copy that returns `UCC_ERR_NO_MESSAGE` at all ends with `cudaGetLastError`
and a clear sticky error. When the driver call `cuMemGetAddressRange` fails,
query returns `UCC_ERR_NOT_SUPPORTED` without calling `cudaGetLastError`, and
the sticky last error is what it was on entry. -/
theorem sticky_error_after_failure :
    (∀ (ptr size : Nat) (r_malloc : cudaError_t × Nat) (w : World),
      r_malloc.1 ≠ cudaSuccess →
      (ucc_mc_cuda_mem_alloc ptr size r_malloc w).1 = UCC_ERR_NO_MEMORY ∧
      issued w (ucc_mc_cuda_mem_alloc ptr size r_malloc w).2.2
        = [NativeCall.cudaMalloc size, NativeCall.cudaGetLastError] ∧
      (ucc_mc_cuda_mem_alloc ptr size r_malloc w).2.2.last_error = cudaSuccess) ∧
    (∀ (ptr : Nat) (r_free : cudaError_t) (w : World),
      r_free ≠ cudaSuccess →
      (ucc_mc_cuda_mem_free ptr r_free w).1 = UCC_ERR_NO_MESSAGE ∧
      issued w (ucc_mc_cuda_mem_free ptr r_free w).2
        = [NativeCall.cudaFree ptr, NativeCall.cudaGetLastError] ∧
      (ucc_mc_cuda_mem_free ptr r_free w).2.last_error = cudaSuccess) ∧
    (∀ (assert_enabled : Bool) (dst src len : Nat) (dst_mem src_mem : ucc_memory_type_t)
        (r_copy r_sync : cudaError_t) (w : World) (k : Option cudaMemcpyKind),
      (assert_enabled = false ∨ dst_mem = UCC_MEMORY_TYPE_CUDA ∨
        src_mem = UCC_MEMORY_TYPE_CUDA) →
      ucc_mc_cuda_memcpy_kind_map assert_enabled dst_mem src_mem none
        = Outcome.ret (UCC_OK, k) →
      (r_copy ≠ cudaSuccess →
        ∃ w1,
          ucc_mc_cuda_memcpy assert_enabled dst src len dst_mem src_mem r_copy r_sync w
            = Outcome.ret (UCC_ERR_NO_MESSAGE, w1) ∧
          issued w w1
            = [NativeCall.cudaMemcpyAsync dst src len k, NativeCall.cudaGetLastError] ∧
          w1.last_error = cudaSuccess) ∧
      (r_copy = cudaSuccess → r_sync ≠ cudaSuccess →
        ∃ w1,
          ucc_mc_cuda_memcpy assert_enabled dst src len dst_mem src_mem r_copy r_sync w
            = Outcome.ret (UCC_ERR_NO_MESSAGE, w1) ∧
          issued w w1
            = [NativeCall.cudaMemcpyAsync dst src len k, NativeCall.cudaStreamSynchronize,
                NativeCall.cudaGetLastError] ∧
          w1.last_error = cudaSuccess)) ∧
    (∀ (assert_enabled : Bool) (dst src len : Nat) (dst_mem src_mem : ucc_memory_type_t)
        (r_copy r_sync : cudaError_t) (w w1 : World),
      ucc_mc_cuda_memcpy assert_enabled dst src len dst_mem src_mem r_copy r_sync w
        = Outcome.ret (UCC_ERR_NO_MESSAGE, w1) →
      (r_copy ≠ cudaSuccess ∨ r_sync ≠ cudaSuccess) ∧
      (issued w w1).getLast? = some NativeCall.cudaGetLastError ∧
      w1.last_error = cudaSuccess) ∧
    (∀ (F : ucc_mem_attr_field) (CUDART_VERSION : Nat) (ptr length : Nat)
        (mem_attr : ucc_mem_attr_t) (r_attr : cudaError_t × cudaPointerAttributes)
        (r_range : CUresult × Nat × Nat) (w : World),
      ptr ≠ 0 →
      (mem_attr.field_mask &&& F.UCC_MEM_ATTR_FIELD_MEM_TYPE ≠ 0 →
        r_attr.1 ≠ cudaSuccess →
        (ucc_mc_cuda_mem_query F CUDART_VERSION ptr length mem_attr r_attr r_range w).1 = UCC_ERR_NOT_SUPPORTED ∧
        issued w (ucc_mc_cuda_mem_query F CUDART_VERSION ptr length mem_attr r_attr r_range w).2.2
          = [NativeCall.cudaPointerGetAttributes ptr, NativeCall.cudaGetLastError] ∧
        (ucc_mc_cuda_mem_query F CUDART_VERSION ptr length mem_attr r_attr r_range w).2.2.last_error = cudaSuccess) ∧
      ((mem_attr.field_mask &&& F.UCC_MEM_ATTR_FIELD_MEM_TYPE = 0 ∨
          (r_attr.1 = cudaSuccess ∧ query_mem_type CUDART_VERSION r_attr.2 ≠ none)) →
        (mem_attr.field_mask &&& F.UCC_MEM_ATTR_FIELD_BASE_ADDRESS ≠ 0 ∨
          mem_attr.field_mask &&& F.UCC_MEM_ATTR_FIELD_ALLOC_LENGTH ≠ 0) →
        r_range.1 ≠ CUDA_SUCCESS →
        (ucc_mc_cuda_mem_query F CUDART_VERSION ptr length mem_attr r_attr r_range w).1 = UCC_ERR_NOT_SUPPORTED ∧
        NativeCall.cudaGetLastError ∉ issued w (ucc_mc_cuda_mem_query F CUDART_VERSION ptr length mem_attr r_attr r_range w).2.2 ∧
        (ucc_mc_cuda_mem_query F CUDART_VERSION ptr length mem_attr r_attr r_range w).2.2.last_error = w.last_error)) := by
  refine ⟨?_, ?_, ?_, ?_, ?_⟩
  · intro ptr size r_malloc w h
    simp [ucc_mc_cuda_mem_alloc, h, issued, rt_call, cudaGetLastError, mc_log]
  · intro ptr r_free w h
    simp [ucc_mc_cuda_mem_free, h, issued, rt_call, cudaGetLastError, mc_log]
  · intro assert_enabled dst src len dst_mem src_mem r_copy r_sync w k hpre hmap
    constructor
    · intro hc
      cases dst_mem <;> cases src_mem <;> cases assert_enabled <;>
        simp_all [ucc_mc_cuda_memcpy, ucc_mc_cuda_memcpy_kind_map, ucc_assert,
          issued, rt_call, cudaGetLastError, mc_log]
    · intro hc hs
      cases dst_mem <;> cases src_mem <;> cases assert_enabled <;>
        simp_all [ucc_mc_cuda_memcpy, ucc_mc_cuda_memcpy_kind_map, ucc_assert,
          issued, rt_call, cudaGetLastError, mc_log]
  · intro assert_enabled dst src len dst_mem src_mem r_copy r_sync w w1 h
    by_cases hc : r_copy = cudaSuccess <;> by_cases hs : r_sync = cudaSuccess <;>
      cases dst_mem <;> cases src_mem <;> cases assert_enabled <;>
      simp_all [ucc_mc_cuda_memcpy, ucc_mc_cuda_memcpy_kind_map, ucc_assert,
        issued, rt_call, cudaGetLastError, mc_log] <;>
      (subst h; simp)
  · intro F CUDART_VERSION ptr length mem_attr r_attr r_range w hp
    have hr : (mem_attr.field_mask &&& (F.UCC_MEM_ATTR_FIELD_ALLOC_LENGTH |||
        F.UCC_MEM_ATTR_FIELD_BASE_ADDRESS) = 0) ↔
        (mem_attr.field_mask &&& F.UCC_MEM_ATTR_FIELD_BASE_ADDRESS = 0 ∧
          mem_attr.field_mask &&& F.UCC_MEM_ATTR_FIELD_ALLOC_LENGTH = 0) := by
      rw [land_lor_eq_zero_iff]
      exact and_comm
    have ha : mem_attr.field_mask &&& (F.UCC_MEM_ATTR_FIELD_MEM_TYPE |||
        F.UCC_MEM_ATTR_FIELD_BASE_ADDRESS ||| F.UCC_MEM_ATTR_FIELD_ALLOC_LENGTH) = 0 ↔
        (mem_attr.field_mask &&& F.UCC_MEM_ATTR_FIELD_MEM_TYPE = 0 ∧
          mem_attr.field_mask &&& F.UCC_MEM_ATTR_FIELD_BASE_ADDRESS = 0) ∧
          mem_attr.field_mask &&& F.UCC_MEM_ATTR_FIELD_ALLOC_LENGTH = 0 := by
      rw [land_lor_eq_zero_iff, land_lor_eq_zero_iff]
    by_cases hmt : mem_attr.field_mask &&& F.UCC_MEM_ATTR_FIELD_MEM_TYPE = 0 <;>
    by_cases hba : mem_attr.field_mask &&& F.UCC_MEM_ATTR_FIELD_BASE_ADDRESS = 0 <;>
    by_cases hal : mem_attr.field_mask &&& F.UCC_MEM_ATTR_FIELD_ALLOC_LENGTH = 0 <;>
    by_cases hst : r_attr.1 = cudaSuccess <;>
    by_cases hcu : r_range.1 = CUDA_SUCCESS <;>
    cases hk : query_mem_type CUDART_VERSION r_attr.2 <;>
    simp [ucc_mc_cuda_mem_query, hr, ha, hmt, hba, hal, hp, hst, hcu, hk,
      issued, rt_call, drv_call, cudaGetLastError, mc_log]

/-- C7 (as amended), witness: with a stale sticky error 9 on entry, a failed
`cudaMalloc`, a failed `cudaFree`, a failed enqueue (for the pairing
(Host, Host) with assertions compiled out), a failed drain and a failed
`cudaPointerGetAttributes` each leave the sticky error clear, and a failed
`cuMemGetAddressRange` leaves it at 9 without a call of `cudaGetLastError`. -/
theorem sticky_error_after_failure_witness :
    ((ucc_mc_cuda_mem_alloc 0 64 (2, 0) ⟨9, [], []⟩).1 = UCC_ERR_NO_MEMORY ∧
      issued ⟨9, [], []⟩ (ucc_mc_cuda_mem_alloc 0 64 (2, 0) ⟨9, [], []⟩).2.2
        = [NativeCall.cudaMalloc 64, NativeCall.cudaGetLastError] ∧
      (ucc_mc_cuda_mem_alloc 0 64 (2, 0) ⟨9, [], []⟩).2.2.last_error = cudaSuccess) ∧
    ((ucc_mc_cuda_mem_free 4096 17 ⟨9, [], []⟩).1 = UCC_ERR_NO_MESSAGE ∧
      issued ⟨9, [], []⟩ (ucc_mc_cuda_mem_free 4096 17 ⟨9, [], []⟩).2
        = [NativeCall.cudaFree 4096, NativeCall.cudaGetLastError] ∧
      (ucc_mc_cuda_mem_free 4096 17 ⟨9, [], []⟩).2.last_error = cudaSuccess) ∧
    (∃ w1,
      ucc_mc_cuda_memcpy false 4096 8192 16 UCC_MEMORY_TYPE_HOST UCC_MEMORY_TYPE_HOST 5 0 ⟨9, [], []⟩
        = Outcome.ret (UCC_ERR_NO_MESSAGE, w1) ∧
      issued ⟨9, [], []⟩ w1
        = [NativeCall.cudaMemcpyAsync 4096 8192 16 (some cudaMemcpyDeviceToHost),
            NativeCall.cudaGetLastError] ∧
      w1.last_error = cudaSuccess) ∧
    (∃ w1,
      ucc_mc_cuda_memcpy true 4096 8192 16 UCC_MEMORY_TYPE_HOST UCC_MEMORY_TYPE_CUDA 0 6 ⟨9, [], []⟩
        = Outcome.ret (UCC_ERR_NO_MESSAGE, w1) ∧
      issued ⟨9, [], []⟩ w1
        = [NativeCall.cudaMemcpyAsync 4096 8192 16 (some cudaMemcpyDeviceToHost),
            NativeCall.cudaStreamSynchronize, NativeCall.cudaGetLastError] ∧
      w1.last_error = cudaSuccess) ∧
    (((5 : cudaError_t) ≠ cudaSuccess ∨ (0 : cudaError_t) ≠ cudaSuccess) ∧
      (issued ⟨9, [], []⟩ ⟨0, [NativeCall.cudaMemcpyAsync 4096 8192 16 (some cudaMemcpyDeviceToHost),
          NativeCall.cudaGetLastError], [LogEvent.mc_error]⟩).getLast?
        = some NativeCall.cudaGetLastError ∧
      ((⟨0, [NativeCall.cudaMemcpyAsync 4096 8192 16 (some cudaMemcpyDeviceToHost),
          NativeCall.cudaGetLastError], [LogEvent.mc_error]⟩ : World)).last_error = cudaSuccess) ∧
    ((ucc_mc_cuda_mem_query sample_fields 11000 4096 16 ⟨1, UCC_MEMORY_TYPE_CUDA, 7, 9⟩
        (4, ⟨cudaMemoryTypeDevice, cudaMemoryTypeDevice, 0⟩) (0, 0, 0) ⟨9, [], []⟩).1 = UCC_ERR_NOT_SUPPORTED ∧
      issued ⟨9, [], []⟩ (ucc_mc_cuda_mem_query sample_fields 11000 4096 16 ⟨1, UCC_MEMORY_TYPE_CUDA, 7, 9⟩
        (4, ⟨cudaMemoryTypeDevice, cudaMemoryTypeDevice, 0⟩) (0, 0, 0) ⟨9, [], []⟩).2.2
        = [NativeCall.cudaPointerGetAttributes 4096, NativeCall.cudaGetLastError] ∧
      (ucc_mc_cuda_mem_query sample_fields 11000 4096 16 ⟨1, UCC_MEMORY_TYPE_CUDA, 7, 9⟩
        (4, ⟨cudaMemoryTypeDevice, cudaMemoryTypeDevice, 0⟩) (0, 0, 0) ⟨9, [], []⟩).2.2.last_error = cudaSuccess) ∧
    ((ucc_mc_cuda_mem_query sample_fields 11000 4096 16 ⟨4, UCC_MEMORY_TYPE_CUDA, 7, 9⟩
        (0, ⟨cudaMemoryTypeDevice, cudaMemoryTypeDevice, 0⟩) (1, 0, 0) ⟨9, [], []⟩).1 = UCC_ERR_NOT_SUPPORTED ∧
      NativeCall.cudaGetLastError ∉ issued ⟨9, [], []⟩
        (ucc_mc_cuda_mem_query sample_fields 11000 4096 16 ⟨4, UCC_MEMORY_TYPE_CUDA, 7, 9⟩
          (0, ⟨cudaMemoryTypeDevice, cudaMemoryTypeDevice, 0⟩) (1, 0, 0) ⟨9, [], []⟩).2.2 ∧
      (ucc_mc_cuda_mem_query sample_fields 11000 4096 16 ⟨4, UCC_MEMORY_TYPE_CUDA, 7, 9⟩
        (0, ⟨cudaMemoryTypeDevice, cudaMemoryTypeDevice, 0⟩) (1, 0, 0) ⟨9, [], []⟩).2.2.last_error = ((⟨9, [], []⟩ : World)).last_error) :=
  ⟨sticky_error_after_failure.1 0 64 (2, 0) ⟨9, [], []⟩ (by decide),
   sticky_error_after_failure.2.1 4096 17 ⟨9, [], []⟩ (by decide),
   (sticky_error_after_failure.2.2.1 false 4096 8192 16 UCC_MEMORY_TYPE_HOST
      UCC_MEMORY_TYPE_HOST 5 0 ⟨9, [], []⟩ (some cudaMemcpyDeviceToHost) (Or.inl rfl) rfl).1
      (by decide),
   (sticky_error_after_failure.2.2.1 true 4096 8192 16 UCC_MEMORY_TYPE_HOST
      UCC_MEMORY_TYPE_CUDA 0 6 ⟨9, [], []⟩ (some cudaMemcpyDeviceToHost) (Or.inr (Or.inr rfl))
      rfl).2 rfl (by decide),
   sticky_error_after_failure.2.2.2.1 false 4096 8192 16 UCC_MEMORY_TYPE_HOST
      UCC_MEMORY_TYPE_HOST 5 0 ⟨9, [], []⟩
      ⟨0, [NativeCall.cudaMemcpyAsync 4096 8192 16 (some cudaMemcpyDeviceToHost),
          NativeCall.cudaGetLastError], [LogEvent.mc_error]⟩ rfl,
   (sticky_error_after_failure.2.2.2.2 sample_fields 11000 4096 16
      ⟨1, UCC_MEMORY_TYPE_CUDA, 7, 9⟩ (4, ⟨cudaMemoryTypeDevice, cudaMemoryTypeDevice, 0⟩) (0, 0, 0) ⟨9, [], []⟩ (by decide)).1
      (by decide) (by decide),
   (sticky_error_after_failure.2.2.2.2 sample_fields 11000 4096 16
      ⟨4, UCC_MEMORY_TYPE_CUDA, 7, 9⟩ (0, ⟨cudaMemoryTypeDevice, cudaMemoryTypeDevice, 0⟩) (1, 0, 0) ⟨9, [], []⟩ (by decide)).2
      (Or.inl (by decide)) (Or.inl (by decide)) (by decide)⟩

/-- C7, counterexample: with a stale sticky error 700 on entry, a query of a
non-null pointer for BASE_ADDRESS whose `cuMemGetAddressRange` fails returns
`UCC_ERR_NOT_SUPPORTED` without calling `cudaGetLastError`, and the sticky error
is still 700 on return. -/
theorem mem_query_range_failure_keeps_sticky_error :
    ucc_mc_cuda_mem_query sample_fields 11000 4096 16 ⟨4, UCC_MEMORY_TYPE_HOST, 0, 0⟩
        (0, ⟨cudaMemoryTypeDevice, cudaMemoryTypeDevice, 0⟩) (1, 0, 0) ⟨700, [], []⟩
      = (UCC_ERR_NOT_SUPPORTED, ⟨4, UCC_MEMORY_TYPE_HOST, 0, 0⟩,
          ⟨700, [NativeCall.cuMemGetAddressRange 4096], [LogEvent.mc_error]⟩) ∧
    (ucc_mc_cuda_mem_query sample_fields 11000 4096 16 ⟨4, UCC_MEMORY_TYPE_HOST, 0, 0⟩
        (0, ⟨cudaMemoryTypeDevice, cudaMemoryTypeDevice, 0⟩) (1, 0, 0)
        ⟨700, [], []⟩).2.2.last_error ≠ cudaSuccess ∧
    NativeCall.cudaGetLastError ∉
      (ucc_mc_cuda_mem_query sample_fields 11000 4096 16 ⟨4, UCC_MEMORY_TYPE_HOST, 0, 0⟩
        (0, ⟨cudaMemoryTypeDevice, cudaMemoryTypeDevice, 0⟩) (1, 0, 0)
        ⟨700, [], []⟩).2.2.calls := by
  refine ⟨by rfl, by decide, by decide⟩

/-! ## Initialisation -/

/-- C4: when every native call of `ucc_mc_cuda_init` succeeds, the device reports
a grid size `maxGridSize[0]` (a non-negative `int`), and the configured block
count is not the auto sentinel and is greater than `maxGridSize[0]`, then init
returns success, the effective `reduce_num_blocks` is `maxGridSize[0]`, the
effective `reduce_num_threads` is `maxThreadsPerBlock`, and exactly one
diagnostic, a warning, is emitted. -/
theorem init_clamps_num_blocks (UCC_ULUNITS_AUTO : Nat) (chk_err : ucc_status_t)
    (r_device : cudaError_t × Int) (r_prop : cudaError_t × cudaDeviceProp)
    (r_stream : cudaError_t × Nat) (self : ucc_mc_cuda_t) (w : World)
    (hdev : r_device.1 = cudaSuccess) (hprop : r_prop.1 = cudaSuccess)
    (hstream : r_stream.1 = cudaSuccess)
    (hgrid0 : 0 ≤ r_prop.2.maxGridSize0) (hgrid1 : r_prop.2.maxGridSize0 < 2 ^ 31)
    (hauto : self.cfg.reduce_num_blocks ≠ UCC_ULUNITS_AUTO)
    (hgt : r_prop.2.maxGridSize0 < (self.cfg.reduce_num_blocks : Int)) :
    (ucc_mc_cuda_init UCC_ULUNITS_AUTO chk_err r_device r_prop r_stream self w).1 = UCC_OK ∧
    ((ucc_mc_cuda_init UCC_ULUNITS_AUTO chk_err r_device r_prop r_stream self
        w).2.1.cfg.reduce_num_blocks : Int) = r_prop.2.maxGridSize0 ∧
    (ucc_mc_cuda_init UCC_ULUNITS_AUTO chk_err r_device r_prop r_stream self
        w).2.1.cfg.reduce_num_threads = r_prop.2.maxThreadsPerBlock ∧
    (ucc_mc_cuda_init UCC_ULUNITS_AUTO chk_err r_device r_prop r_stream self w).2.2.log
        = w.log ++ [LogEvent.mc_warn] := by
  have hconv : ((to_ulong r_prop.2.maxGridSize0 : Nat) : Int) = r_prop.2.maxGridSize0 := by
    unfold to_ulong
    rw [Int.emod_eq_of_lt hgrid0 (by omega)]
    exact Int.toNat_of_nonneg hgrid0
  have hlt : to_ulong r_prop.2.maxGridSize0 < self.cfg.reduce_num_blocks := by
    have : ((to_ulong r_prop.2.maxGridSize0 : Nat) : Int) < (self.cfg.reduce_num_blocks : Int) := by
      rw [hconv]
      exact hgt
    exact_mod_cast this
  simp [ucc_mc_cuda_init, CUDACHECK, hdev, hprop, hstream, hauto, hlt, hconv, rt_call, mc_log]

/-- C4, witness: `maxThreadsPerBlock = 1024`, `maxGridSize[0] = 65535`, configured
block count 100000 (the auto sentinel being `(unsigned long)-2`): init succeeds,
the effective block count is 65535, and one warning is emitted. -/
theorem init_clamps_num_blocks_witness :
    (ucc_mc_cuda_init (2 ^ 64 - 2) UCC_ERR_NO_MESSAGE (0, 0) (0, ⟨1024, 65535⟩) (0, 1)
        ⟨⟨100000, 0⟩, none⟩ ⟨0, [], []⟩).1 = UCC_OK ∧
    ((ucc_mc_cuda_init (2 ^ 64 - 2) UCC_ERR_NO_MESSAGE (0, 0) (0, ⟨1024, 65535⟩) (0, 1)
        ⟨⟨100000, 0⟩, none⟩ ⟨0, [], []⟩).2.1.cfg.reduce_num_blocks : Int) = 65535 ∧
    (ucc_mc_cuda_init (2 ^ 64 - 2) UCC_ERR_NO_MESSAGE (0, 0) (0, ⟨1024, 65535⟩) (0, 1)
        ⟨⟨100000, 0⟩, none⟩ ⟨0, [], []⟩).2.1.cfg.reduce_num_threads = 1024 ∧
    (ucc_mc_cuda_init (2 ^ 64 - 2) UCC_ERR_NO_MESSAGE (0, 0) (0, ⟨1024, 65535⟩) (0, 1)
        ⟨⟨100000, 0⟩, none⟩ ⟨0, [], []⟩).2.2.log = [] ++ [LogEvent.mc_warn] :=
  init_clamps_num_blocks (2 ^ 64 - 2) UCC_ERR_NO_MESSAGE (0, 0) (0, ⟨1024, 65535⟩) (0, 1)
    ⟨⟨100000, 0⟩, none⟩ ⟨0, [], []⟩ rfl rfl rfl (by decide) (by decide) (by decide)
    (by decide)

end McCuda
